import Mathlib

/-!
Shallow embedding of the booking-form core of `src/src/App.jsx`
(rental-motor-web): the three-step booking wizard of `BookingModal`,
its validation (`validateBooking`), the derived pricing
(`totalDays` / `totalPrice`), the generic form hook
(`useFormValidation.handleSubmit` / `resetForm`), and the
recently-viewed cache update of `App.handleBooking`.

Modelling conventions:
* A date `<input type="date">` holds either the empty string or a valid
  date string; `new Date(str)` turns a valid date string into a
  millisecond timestamp and the empty string into `NaN` (every `<=`
  comparison against `NaN` is false, and `''` is falsy).  A date field
  is therefore modelled as `Option Int`: `none` is the empty string and
  `some t` a parsed timestamp in milliseconds.
* JS numbers on these values (integer milliseconds, day counts and
  prices) stay exact, so they are embedded as `Int`.
* The error object `{field: message}` built by `validateBooking` is a
  record of `Option String` per field; `Object.keys(e).length === 0`
  is the predicate that every field is `none`.
* `Math.ceil(x / d)` on an integer `x` and positive integer `d` is the
  integer ceiling division `-((-x).ediv d)`.
* The regex test `/\S+@\S+\.\S+/.test(email)` (an unanchored search) is
  an NFA run over the characters of the string.
-/

namespace RentalMotor

/-- A catalog vehicle, from `useMotorcycleData` (the JS float `rating`
field is not used by any booking-path computation and is omitted). -/
structure Motor where
  id : Nat
  name : String
  price : Int
  image : String
  specs : List String
  reviews : Nat
  featured : Bool
  category : String
deriving DecidableEq, Repr

/-- The form values of the booking wizard (`useFormValidation` initial
state at `BookingModal`): the in-progress booking draft.  Date fields
are `none` for the empty string, `some t` for a parsed timestamp. -/
structure BookingDraft where
  name : String
  email : String
  phone : String
  startDate : Option Int
  endDate : Option Int
  notes : String
deriving DecidableEq, Repr

/-- The initial (empty) booking draft passed to `useFormValidation`. -/
def initialDraft : BookingDraft :=
  { name := "", email := "", phone := "", startDate := none,
    endDate := none, notes := "" }

/-- The per-field error object produced by `validateBooking`:
`none` means the key is absent from the JS errors object. -/
structure BookingErrors where
  name : Option String
  email : Option String
  phone : Option String
  startDate : Option String
  endDate : Option String
deriving DecidableEq, Repr

/-- The empty errors object `{}`. -/
def noErrors : BookingErrors :=
  { name := none, email := none, phone := none, startDate := none,
    endDate := none }

/-- The `touched` map of `useFormValidation`, one flag per form field. -/
structure Touched where
  name : Bool
  email : Bool
  phone : Bool
  startDate : Bool
  endDate : Bool
  notes : Bool
deriving DecidableEq, Repr

/-- The initial `touched` map `{}` (every key absent, hence falsy). -/
def initialTouched : Touched :=
  { name := false, email := false, phone := false, startDate := false,
    endDate := false, notes := false }

/-- The `touched` map after `handleSubmit` marks every key of `values`
as touched. -/
def allTouched : Touched :=
  { name := true, email := true, phone := true, startDate := true,
    endDate := true, notes := true }

/-- State of the NFA for the email regex `\S+@\S+\.\S+`: `s1` after
`\S+`, `s2` after `@`, `s3` after `@\S+`, `s4` after the dot, `acc`
once a full match has been seen somewhere in the input. -/
structure EmailSt where
  s1 : Bool
  s2 : Bool
  s3 : Bool
  s4 : Bool
  acc : Bool
deriving DecidableEq, Repr

/-- One NFA transition on character `c`.  The start state is always
active because the regex test is an unanchored search. -/
def emailStep (st : EmailSt) (c : Char) : EmailSt :=
  let ns := !c.isWhitespace
  { s1 := ns
    s2 := st.s1 && (c = '@')
    s3 := (st.s2 || st.s3) && ns
    s4 := st.s3 && (c = '.')
    acc := st.acc || (st.s4 && ns) }

/-- `/\S+@\S+\.\S+/.test s`: the string contains a contiguous run
`\S+@\S+\.\S+`. -/
def emailTest (s : String) : Bool :=
  (s.data.foldl emailStep
    { s1 := false, s2 := false, s3 := false, s4 := false, acc := false }).acc

/-- JS `String.prototype.trim`: drop whitespace from both ends. -/
def jsTrim (s : String) : String :=
  ⟨((s.data.dropWhile Char.isWhitespace).reverse.dropWhile
      Char.isWhitespace).reverse⟩

/-- `BookingModal.validateBooking` (App.jsx lines 341-351), field by
field.  `new Date(end) <= new Date(start)` is false whenever the start
date is the empty string (`NaN` comparison), so the range check only
fires when both dates are present. -/
def validateBooking (data : BookingDraft) : BookingErrors :=
  { name := if jsTrim data.name = "" then some "Nama harus diisi" else none
    email :=
      if jsTrim data.email = "" then some "Email harus diisi"
      else if !emailTest data.email then some "Email tidak valid" else none
    phone :=
      if jsTrim data.phone = "" then some "Nomor telepon harus diisi" else none
    startDate :=
      if data.startDate = none then some "Tanggal mulai harus diisi" else none
    endDate :=
      match data.endDate with
      | none => some "Tanggal selesai harus diisi"
      | some e =>
        match data.startDate with
        | some s =>
          if e ≤ s then some "Tanggal selesai harus setelah tanggal mulai"
          else none
        | none => none }

/-- The date-field portion of `validateBooking`: the Step-1 validator
of the spec. -/
def validateStep1 (data : BookingDraft) : BookingErrors :=
  { name := none, email := none, phone := none,
    startDate := (validateBooking data).startDate,
    endDate := (validateBooking data).endDate }

/-- The contact-field portion of `validateBooking`: the Step-2
validator of the spec. -/
def validateStep2 (data : BookingDraft) : BookingErrors :=
  { name := (validateBooking data).name,
    email := (validateBooking data).email,
    phone := (validateBooking data).phone,
    startDate := none, endDate := none }

/-- Milliseconds per day, the divisor `1000 * 60 * 60 * 24`. -/
def msPerDay : Int := 1000 * 60 * 60 * 24

/-- `Math.ceil (n / d)` for integers with `d > 0` (Int division is
floor division for a positive divisor, so this is the ceiling). -/
def jsCeilDiv (n d : Int) : Int := -((-n) / d)

/-- `BookingModal.totalDays` (App.jsx lines 365-366):
`values.startDate && values.endDate ?
 Math.max(1, Math.ceil((end - start) / msPerDay)) : 0`. -/
def totalDays (values : BookingDraft) : Int :=
  match values.startDate, values.endDate with
  | some s, some e => max 1 (jsCeilDiv (e - s) msPerDay)
  | _, _ => 0

/-- `BookingModal.totalPrice` (App.jsx line 367):
`totalDays * (motor?.price || 0)` (a `0` price is falsy and also
yields the fallback `0`, which is the same value). -/
def totalPrice (values : BookingDraft) (motor : Option Motor) : Int :=
  totalDays values * (match motor with | some m => m.price | none => 0)

/-- The completed booking handed to `onConfirm`
(`handleBookingSubmit`, App.jsx lines 392-397):
`{ ...formData, motor, totalDays, totalPrice }`. -/
structure BookingResult where
  values : BookingDraft
  motor : Option Motor
  totalDays : Int
  totalPrice : Int
deriving DecidableEq, Repr

/-- The state of one wizard session: `BookingModal`'s `step`, the form
hook's `values` / `errors` / `touched` / `isSubmitting`, the modal
open flag and selected motor owned by `App`, and the log of
`onConfirm` invocations made so far. -/
structure Session where
  step : Nat
  values : BookingDraft
  errors : BookingErrors
  touched : Touched
  isSubmitting : Bool
  isOpen : Bool
  motor : Option Motor
  confirmed : List BookingResult
deriving DecidableEq, Repr

/-- The session before any interaction. -/
def initialSession : Session :=
  { step := 1, values := initialDraft, errors := noErrors,
    touched := initialTouched, isSubmitting := false, isOpen := false,
    motor := none, confirmed := [] }

/-- Closing the modal: `onClose` sets `isOpen` to false, upon which the
reset effect (App.jsx lines 369-374) runs `setStep(1)` and
`resetForm()` (`useFormValidation.resetForm`, lines 90-95). -/
def closeModal (s : Session) : Session :=
  { s with
    isOpen := false
    step := 1
    values := initialDraft
    errors := noErrors
    touched := initialTouched
    isSubmitting := false }

/-- Opening the modal on a vehicle: `App.handleBooking(motor)` sets the
selected motor and `bookingModalOpen` (the recently-viewed cache update
is modelled separately by `updateRecentlyViewed`). -/
def openModal (m : Motor) (s : Session) : Session :=
  { s with motor := some m, isOpen := true }

/-- The Step-1 continue button (App.jsx lines 486-492): `setStep(2)`,
enabled exactly when `totalDays > 0` (`disabled={totalDays <= 0}`). -/
def advance (s : Session) : Session :=
  if s.step = 1 ∧ 0 < totalDays s.values then { s with step := 2 } else s

/-- The Step-2 form submit: `useFormValidation.handleSubmit` (App.jsx
lines 78-88) recomputes `validate(values)`, stores the errors, marks
every field touched, and only when the error object is empty sets
`isSubmitting` and invokes the callback `handleBookingSubmit` (lines
392-397), which calls `onConfirm(bookingData)` once and `setStep(3)`. -/
def submit (s : Session) : Session :=
  if s.step = 2 then
    let ve := validateBooking s.values
    if ve = noErrors then
      { s with
        errors := ve
        touched := allTouched
        isSubmitting := true
        step := 3
        confirmed := s.confirmed ++
          [{ values := s.values, motor := s.motor,
             totalDays := totalDays s.values,
             totalPrice := totalPrice s.values s.motor }] }
    else { s with errors := ve, touched := allTouched }
  else s

/-- The recently-viewed cache update of `App.handleBooking` (App.jsx
lines 694-697): drop any entry with the selected motor's id, prepend
the motor, keep the first three entries. -/
def updateRecentlyViewed (motor : Motor) (prev : List Motor) : List Motor :=
  (motor :: prev.filter (fun item => item.id != motor.id)).take 3

/-- Timestamp of 2024-01-01 (UTC midnight), in milliseconds. -/
def msJan1 : Int := 1704067200000

/-- Timestamp of 2024-01-03 (UTC midnight), in milliseconds. -/
def msJan3 : Int := 1704240000000

end RentalMotor

namespace RentalMotor

/-- The static catalog of `useMotorcycleData` (App.jsx lines 266-335),
without the unused float `rating` field. -/
def motorcycles : List Motor :=
  [ { id := 1, name := "Honda CB150R", price := 120000,
      image := "https://images.unsplash.com/photo-1558618666-fcd25c85cd64?w=400&h=300&fit=crop",
      specs := ["150cc", "Manual", "ABS", "180kg"], reviews := 128,
      featured := true, category := "sport" },
    { id := 2, name := "Yamaha NMAX", price := 100000,
      image := "https://images.unsplash.com/photo-1571068316344-75bc76f77890?w=400&h=300&fit=crop",
      specs := ["155cc", "Automatic", "ABS", "131kg"], reviews := 95,
      featured := false, category := "matic" },
    { id := 3, name := "Suzuki GSX-R150", price := 130000,
      image := "https://images.unsplash.com/photo-1621274403997-37aace184f49?w=400&h=300&fit=crop",
      specs := ["150cc", "Manual", "ABS", "142kg"], reviews := 87,
      featured := true, category := "sport" },
    { id := 4, name := "Kawasaki Ninja 250", price := 150000,
      image := "https://images.unsplash.com/photo-1558981806-ec527fa84c39?w=400&h=300&fit=crop",
      specs := ["250cc", "Manual", "ABS", "172kg"], reviews := 156,
      featured := true, category := "sport" },
    { id := 5, name := "Vespa Sprint", price := 80000,
      image := "https://images.unsplash.com/photo-1566891438107-5e0a1e03c7ab?w=400&h=300&fit=crop",
      specs := ["150cc", "Automatic", "CBS", "120kg"], reviews := 89,
      featured := false, category := "vintage" },
    { id := 6, name := "Honda ADV150", price := 110000,
      image := "https://images.unsplash.com/photo-1609630875171-b1321377ee65?w=400&h=300&fit=crop",
      specs := ["150cc", "Automatic", "ABS", "134kg"], reviews := 76,
      featured := true, category := "adventure" } ]

/-- The catalog vehicle with daily rate 100000 (Yamaha NMAX). -/
def nmax : Motor :=
  { id := 2, name := "Yamaha NMAX", price := 100000,
    image := "https://images.unsplash.com/photo-1571068316344-75bc76f77890?w=400&h=300&fit=crop",
    specs := ["155cc", "Automatic", "ABS", "131kg"], reviews := 95,
    featured := false, category := "matic" }

/-- Draft with start 2024-01-01 and end 2024-01-03. -/
def janDraft : BookingDraft :=
  { initialDraft with startDate := some msJan1, endDate := some msJan3 }

/-- Claim C1: for a draft whose start and end dates are both present and
whose end date is strictly after the start date, `totalDays` is the
ceiling of the date difference in days clamped below at one (and is at
least one); in particular the 2024-01-01 to 2024-01-03 draft yields
two rental days. -/
theorem totalDays_valid_range (d : BookingDraft) (s e : Int)
    (hs : d.startDate = some s) (he : d.endDate = some e) (hlt : s < e) :
    totalDays d = max 1 (jsCeilDiv (e - s) msPerDay) ∧
    totalDays d = jsCeilDiv (e - s) msPerDay ∧ 1 ≤ totalDays d ∧
    totalDays janDraft = 2 := by
  have h1 : totalDays d = max 1 (jsCeilDiv (e - s) msPerDay) := by
    simp [totalDays, hs, he]
  have hge : 1 ≤ jsCeilDiv (e - s) msPerDay := by
    have hm : msPerDay = 86400000 := by norm_num [msPerDay]
    unfold jsCeilDiv
    rw [hm]
    omega
  refine ⟨h1, ?_, ?_, by decide⟩
  · rw [h1]; omega
  · rw [h1]; omega

theorem totalDays_valid_range_witness :
    janDraft.startDate = some msJan1 ∧ janDraft.endDate = some msJan3 ∧
    msJan1 < msJan3 ∧
    (totalDays janDraft = max 1 (jsCeilDiv (msJan3 - msJan1) msPerDay) ∧
      totalDays janDraft = jsCeilDiv (msJan3 - msJan1) msPerDay ∧
      1 ≤ totalDays janDraft ∧ totalDays janDraft = 2) :=
  ⟨rfl, rfl, by decide, totalDays_valid_range janDraft msJan1 msJan3 rfl rfl (by decide)⟩

end RentalMotor

namespace RentalMotor

/-- Claim C3: the total price is the rental-day count times the selected
vehicle's daily rate, in exact integer arithmetic; in particular two
days at daily rate 100000 cost 200000. -/
theorem totalPrice_exact (v : Motor) (d : BookingDraft) (s e : Int)
    (_hs : d.startDate = some s) (_he : d.endDate = some e) (_hlt : s < e) :
    totalPrice d (some v) = totalDays d * v.price ∧
    totalPrice janDraft (some nmax) = 200000 := by
  exact ⟨rfl, by decide⟩

theorem totalPrice_exact_witness :
    janDraft.startDate = some msJan1 ∧ janDraft.endDate = some msJan3 ∧
    msJan1 < msJan3 ∧
    (totalPrice janDraft (some nmax) = totalDays janDraft * nmax.price ∧
      totalPrice janDraft (some nmax) = 200000) :=
  ⟨rfl, rfl, by decide, totalPrice_exact nmax janDraft msJan1 msJan3 rfl rfl (by decide)⟩

/-- Claim C5: `validateStep1` reports a missing-date error on an absent
start or end date, reports the invalid-range error when both dates are
present with the end at or before the start, and its result depends only
on the draft's date fields (it is a pure function of the draft). -/
theorem validateStep1_spec (d : BookingDraft) :
    (d.startDate = none →
      (validateStep1 d).startDate = some "Tanggal mulai harus diisi") ∧
    (d.endDate = none →
      (validateStep1 d).endDate = some "Tanggal selesai harus diisi") ∧
    (∀ s e, d.startDate = some s → d.endDate = some e → e ≤ s →
      (validateStep1 d).endDate =
        some "Tanggal selesai harus setelah tanggal mulai") ∧
    (∀ d' : BookingDraft, d.startDate = d'.startDate → d.endDate = d'.endDate →
      validateStep1 d = validateStep1 d') := by
  refine ⟨?_, ?_, ?_, ?_⟩
  · intro h
    simp [validateStep1, validateBooking, h]
  · intro h
    simp [validateStep1, validateBooking, h]
  · intro s e hs he hle
    simp [validateStep1, validateBooking, hs, he, hle]
  · intro d' h1 h2
    simp [validateStep1, validateBooking, h1, h2]

/-- Draft whose start and end dates are both 2024-01-01. -/
def equalDatesDraft : BookingDraft :=
  { initialDraft with startDate := some msJan1, endDate := some msJan1 }

theorem validateStep1_spec_witness :
    (validateStep1 initialDraft).startDate = some "Tanggal mulai harus diisi" ∧
    (validateStep1 initialDraft).endDate = some "Tanggal selesai harus diisi" ∧
    (validateStep1 equalDatesDraft).endDate =
      some "Tanggal selesai harus setelah tanggal mulai" ∧
    validateStep1 janDraft = validateStep1 { janDraft with name := "Budi" } :=
  ⟨(validateStep1_spec initialDraft).1 rfl,
   (validateStep1_spec initialDraft).2.1 rfl,
   (validateStep1_spec equalDatesDraft).2.2.1 msJan1 msJan1 rfl rfl (le_refl _),
   (validateStep1_spec janDraft).2.2.2 { janDraft with name := "Budi" } rfl rfl⟩

end RentalMotor

namespace RentalMotor

/-- Claim C6: `validateStep2` reports a missing-field error when the
trimmed name, phone, or email is empty, and reports the invalid-email
error when the email is non-empty (after trimming) but fails the
regex-shape test; in particular the email "foo" is reported invalid. -/
theorem validateStep2_spec (d : BookingDraft) :
    (jsTrim d.name = "" → (validateStep2 d).name = some "Nama harus diisi") ∧
    (jsTrim d.phone = "" →
      (validateStep2 d).phone = some "Nomor telepon harus diisi") ∧
    (jsTrim d.email = "" → (validateStep2 d).email = some "Email harus diisi") ∧
    (jsTrim d.email ≠ "" → emailTest d.email = false →
      (validateStep2 d).email = some "Email tidak valid") ∧
    (validateStep2 { d with email := "foo" }).email = some "Email tidak valid" := by
  refine ⟨?_, ?_, ?_, ?_, ?_⟩
  · intro h
    simp [validateStep2, validateBooking, h]
  · intro h
    simp [validateStep2, validateBooking, h]
  · intro h
    simp [validateStep2, validateBooking, h]
  · intro h1 h2
    simp [validateStep2, validateBooking, h1, h2]
  · rfl

theorem validateStep2_spec_witness :
    (validateStep2 initialDraft).name = some "Nama harus diisi" ∧
    (validateStep2 initialDraft).phone = some "Nomor telepon harus diisi" ∧
    (validateStep2 initialDraft).email = some "Email harus diisi" ∧
    (validateStep2 { initialDraft with email := "foo" }).email =
      some "Email tidak valid" ∧
    (validateStep2 { janDraft with email := "foo" }).email =
      some "Email tidak valid" :=
  ⟨(validateStep2_spec initialDraft).1 rfl,
   (validateStep2_spec initialDraft).2.1 rfl,
   (validateStep2_spec initialDraft).2.2.1 rfl,
   (validateStep2_spec { initialDraft with email := "foo" }).2.2.2.1
     (by decide) (by decide),
   (validateStep2_spec janDraft).2.2.2.2⟩

end RentalMotor

namespace RentalMotor

/-- Session sitting on Step 1 with equal start and end dates. -/
def equalDatesSession : Session :=
  { initialSession with values := equalDatesDraft }

/-- Claim C2 as stated is false: with start and end both 2024-01-01 the
Step-1 validator reports the invalid-range error, yet `totalDays` is
clamped to 1, the continue button is enabled, and `advance` moves the
wizard to Step 2. -/
theorem advance_leaves_step1_despite_error :
    validateStep1 equalDatesDraft ≠ noErrors ∧
    equalDatesSession.step = 1 ∧
    (advance equalDatesSession).step = 2 := by
  refine ⟨by decide, rfl, by decide⟩

/-- Claim C2 (amended): `advance` is gated on `totalDays > 0`, not on
`validateStep1`: from Step 1 it reaches Step 2 exactly when the
computed day count is positive, i.e. exactly when both dates are
present; while a date is missing the wizard never leaves Step 1, but a
present-but-invalid range (end at or before start) does advance. -/
theorem advance_gate (s : Session) (h : s.step = 1) :
    ((advance s).step = 2 ↔ 0 < totalDays s.values) ∧
    ((advance s).step = 2 ↔
      (∃ a, s.values.startDate = some a) ∧ ∃ b, s.values.endDate = some b) ∧
    ((s.values.startDate = none ∨ s.values.endDate = none) → advance s = s) := by
  have hpos : 0 < totalDays s.values ↔
      (∃ a, s.values.startDate = some a) ∧ ∃ b, s.values.endDate = some b := by
    unfold totalDays
    rcases hs : s.values.startDate with _ | a <;>
      rcases he : s.values.endDate with _ | b <;> simp
  have hiff : (advance s).step = 2 ↔ 0 < totalDays s.values := by
    unfold advance
    by_cases hp : 0 < totalDays s.values
    · simp [h, hp]
    · simp [h, hp]
  refine ⟨hiff, hiff.trans hpos, ?_⟩
  · intro hmiss
    have h0 : totalDays s.values = 0 := by
      unfold totalDays
      rcases h1 : s.values.startDate with _ | a <;>
        rcases h2 : s.values.endDate with _ | b <;> simp_all
    unfold advance
    simp [h0]

theorem advance_gate_witness :
    initialSession.step = 1 ∧
    (((advance initialSession).step = 2 ↔ 0 < totalDays initialSession.values) ∧
      ((advance initialSession).step = 2 ↔
        (∃ a, initialSession.values.startDate = some a) ∧
          ∃ b, initialSession.values.endDate = some b) ∧
      ((initialSession.values.startDate = none ∨
          initialSession.values.endDate = none) →
        advance initialSession = initialSession)) :=
  ⟨rfl, advance_gate initialSession rfl⟩

/-- If the full `validateBooking` result is empty, so is its Step-2
projection. -/
theorem validateStep2_noErrors_of (d : BookingDraft)
    (h : validateBooking d = noErrors) : validateStep2 d = noErrors := by
  unfold validateStep2
  rw [h]
  rfl

/-- Claim C4: from Step 2, `submit` reaches Step 3 only when the Step-2
validator is empty, and while the Step-2 validator is non-empty the
wizard stays on Step 2. -/
theorem submit_gated_on_validation (s : Session) (h : s.step = 2) :
    ((submit s).step = 3 → validateStep2 s.values = noErrors) ∧
    (validateStep2 s.values ≠ noErrors → (submit s).step = 2) := by
  by_cases hv : validateBooking s.values = noErrors
  · constructor
    · intro _
      exact validateStep2_noErrors_of _ hv
    · intro hne
      exact absurd (validateStep2_noErrors_of _ hv) hne
  · have hstep : (submit s).step = 2 := by
      unfold submit
      simp [h, hv]
    constructor
    · intro h3
      rw [hstep] at h3
      exact absurd h3 (by decide)
    · intro _
      exact hstep

end RentalMotor

namespace RentalMotor

/-- A session sitting on Step 2 with the empty draft. -/
def step2Session : Session := { initialSession with step := 2 }

theorem submit_gated_on_validation_witness :
    step2Session.step = 2 ∧
    (((submit step2Session).step = 3 →
        validateStep2 step2Session.values = noErrors) ∧
      (validateStep2 step2Session.values ≠ noErrors →
        (submit step2Session).step = 2)) :=
  ⟨rfl, submit_gated_on_validation step2Session rfl⟩

/-- Claim C7: a submit from Step 2 on a draft with no validation errors
appends exactly one `onConfirm` invocation, carrying the produced
`BookingResult`; a submit that fails validation appends none. -/
theorem submit_confirms_once (s : Session) (h : s.step = 2) :
    (validateBooking s.values = noErrors →
      (submit s).confirmed = s.confirmed ++
        [{ values := s.values, motor := s.motor,
           totalDays := totalDays s.values,
           totalPrice := totalPrice s.values s.motor }] ∧
      (submit s).confirmed.length = s.confirmed.length + 1) ∧
    (validateBooking s.values ≠ noErrors →
      (submit s).confirmed = s.confirmed) := by
  constructor
  · intro hv
    unfold submit
    simp [h, hv]
  · intro hv
    unfold submit
    simp [h, hv]

/-- A fully valid draft for the NMAX booking. -/
def validDraft : BookingDraft :=
  { name := "Budi Santoso", email := "budi@example.com",
    phone := "081234567890", startDate := some msJan1,
    endDate := some msJan3, notes := "" }

/-- A Step-2 session holding the valid draft. -/
def validSession : Session :=
  { initialSession with step := 2, values := validDraft, motor := some nmax }

theorem submit_confirms_once_witness :
    validSession.step = 2 ∧
    ((validateBooking validSession.values = noErrors →
        (submit validSession).confirmed = validSession.confirmed ++
          [{ values := validSession.values, motor := validSession.motor,
             totalDays := totalDays validSession.values,
             totalPrice := totalPrice validSession.values validSession.motor }] ∧
        (submit validSession).confirmed.length =
          validSession.confirmed.length + 1) ∧
      (validateBooking validSession.values ≠ noErrors →
        (submit validSession).confirmed = validSession.confirmed)) :=
  ⟨rfl, submit_confirms_once validSession rfl⟩

/-- An empty `validateBooking` result forces every field-level check to
have passed: non-empty trimmed name, phone and email, a shape-passing
email, both dates present, and a strictly increasing date range. -/
theorem validateBooking_noErrors_spec (d : BookingDraft)
    (h : validateBooking d = noErrors) :
    jsTrim d.name ≠ "" ∧ jsTrim d.phone ≠ "" ∧ jsTrim d.email ≠ "" ∧
    emailTest d.email = true ∧
    ∃ a b, d.startDate = some a ∧ d.endDate = some b ∧ a < b := by
  rcases hstart : d.startDate with _ | a
  · have hfield := congrArg BookingErrors.startDate h
    simp [validateBooking, hstart, noErrors] at hfield
  rcases hend : d.endDate with _ | b
  · have hfield := congrArg BookingErrors.endDate h
    simp [validateBooking, hend, noErrors] at hfield
  have hn := congrArg BookingErrors.name h
  have he := congrArg BookingErrors.email h
  have hp := congrArg BookingErrors.phone h
  have hd := congrArg BookingErrors.endDate h
  simp [validateBooking, noErrors, hstart, hend] at hn he hp hd
  have hemail : ¬jsTrim d.email = "" ∧ emailTest d.email = true := by
    by_cases h1 : jsTrim d.email = ""
    · simp [h1] at he
    · by_cases h2 : emailTest d.email = true
      · exact ⟨h1, h2⟩
      · have h2' : emailTest d.email = false := by
          cases hb : emailTest d.email
          · rfl
          · exact absurd hb h2
        rw [if_neg h1, if_pos h2'] at he
        simp at he
  exact ⟨hn, hp, hemail.1, hemail.2, a, b, rfl, rfl, by omega⟩

/-- Claim C10: whenever a Step-2 submit lands on Step 3 (the confirmed
state), the submitted draft satisfies the complete booking validator:
non-empty trimmed name and phone, an email passing the shape test, both
dates present, and the end date strictly after the start date (submit
re-runs the full validation, although the Step-1 advance gate only
checked that the day count is positive). -/
theorem step3_full_validation (s : Session) (h2 : s.step = 2)
    (h3 : (submit s).step = 3) :
    validateBooking s.values = noErrors ∧
    jsTrim s.values.name ≠ "" ∧ jsTrim s.values.phone ≠ "" ∧
    jsTrim s.values.email ≠ "" ∧ emailTest s.values.email = true ∧
    ∃ a b, s.values.startDate = some a ∧ s.values.endDate = some b ∧
      a < b := by
  have hv : validateBooking s.values = noErrors := by
    by_contra hv
    have hstep : (submit s).step = 2 := by
      unfold submit
      simp [h2, hv]
    rw [hstep] at h3
    exact absurd h3 (by decide)
  obtain ⟨a1, a2, a3, a4, a5⟩ := validateBooking_noErrors_spec s.values hv
  exact ⟨hv, a1, a2, a3, a4, a5⟩

theorem step3_full_validation_witness :
    validSession.step = 2 ∧ (submit validSession).step = 3 ∧
    (validateBooking validSession.values = noErrors ∧
      jsTrim validSession.values.name ≠ "" ∧
      jsTrim validSession.values.phone ≠ "" ∧
      jsTrim validSession.values.email ≠ "" ∧
      emailTest validSession.values.email = true ∧
      ∃ a b, validSession.values.startDate = some a ∧
        validSession.values.endDate = some b ∧ a < b) :=
  ⟨rfl, by decide, step3_full_validation validSession rfl (by decide)⟩

/-- Claim C8: `close()` followed by `open(v)` yields a session on Step 1
whose draft, error map and touched map are back at their initial empty
values, with the modal open on the selected vehicle. -/
theorem close_open_resets (s : Session) (v : Motor) :
    (openModal v (closeModal s)).step = 1 ∧
    (openModal v (closeModal s)).values = initialDraft ∧
    (openModal v (closeModal s)).errors = noErrors ∧
    (openModal v (closeModal s)).touched = initialTouched ∧
    (openModal v (closeModal s)).isSubmitting = false ∧
    (openModal v (closeModal s)).motor = some v ∧
    (openModal v (closeModal s)).isOpen = true :=
  ⟨rfl, rfl, rfl, rfl, rfl, rfl, rfl⟩

theorem updateRecentlyViewed_nodup (m : Motor) (prev : List Motor)
    (h : (prev.map Motor.id).Nodup) :
    ((updateRecentlyViewed m prev).map Motor.id).Nodup := by
  unfold updateRecentlyViewed
  have hsub : List.Sublist
      (((m :: prev.filter (fun item => item.id != m.id)).take 3).map Motor.id)
      ((m :: prev.filter (fun item => item.id != m.id)).map Motor.id) :=
    (List.take_sublist _ _).map _
  refine List.Nodup.sublist hsub ?_
  rw [List.map_cons, List.nodup_cons]
  constructor
  · intro hmem
    obtain ⟨x, hx, hid⟩ := List.mem_map.mp hmem
    have hne := (List.mem_filter.mp hx).2
    rw [bne_iff_ne] at hne
    exact hne hid
  · exact List.Nodup.sublist ((List.filter_sublist _).map _) h

theorem foldl_recentlyViewed_aux (selections : List Motor) :
    ∀ acc : List Motor, (acc.map Motor.id).Nodup → acc.length ≤ 3 →
      ((selections.foldl (fun a x => updateRecentlyViewed x a) acc).map
          Motor.id).Nodup ∧
      (selections.foldl (fun a x => updateRecentlyViewed x a) acc).length ≤ 3 := by
  induction selections with
  | nil =>
    intro acc h1 h2
    exact ⟨h1, h2⟩
  | cons m rest ih =>
    intro acc h1 h2
    simp only [List.foldl_cons]
    refine ih _ (updateRecentlyViewed_nodup m acc h1) ?_
    unfold updateRecentlyViewed
    exact List.length_take_le _ _

/-- Claim C9: the recently-viewed cache stays an ordered, most-recent-
first list with pairwise distinct vehicle ids and length at most three:
each selection drops any entry with the selected id, prepends the
vehicle (so it is the head), and keeps only the first three entries. -/
theorem recentlyViewed_invariant (selections : List Motor) (m : Motor)
    (prev : List Motor) :
    (((selections.foldl (fun acc x => updateRecentlyViewed x acc) []).map
        Motor.id).Nodup ∧
      (selections.foldl (fun acc x => updateRecentlyViewed x acc) []).length
        ≤ 3) ∧
    (updateRecentlyViewed m prev).head? = some m ∧
    m.id ∉ (prev.filter (fun item => item.id != m.id)).map Motor.id ∧
    updateRecentlyViewed m prev =
      (m :: prev.filter (fun item => item.id != m.id)).take 3 := by
  refine ⟨foldl_recentlyViewed_aux selections [] (by simp) (by simp), rfl,
    ?_, rfl⟩
  intro hmem
  obtain ⟨x, hx, hid⟩ := List.mem_map.mp hmem
  have hne := (List.mem_filter.mp hx).2
  rw [bne_iff_ne] at hne
  exact hne hid

end RentalMotor

namespace RentalMotor

theorem recentlyViewed_invariant_witness :
    ((([nmax, nmax].foldl (fun acc x => updateRecentlyViewed x acc) []).map
        Motor.id).Nodup ∧
      ([nmax, nmax].foldl (fun acc x => updateRecentlyViewed x acc) []).length
        ≤ 3) ∧
    (updateRecentlyViewed nmax [nmax]).head? = some nmax ∧
    nmax.id ∉ ([nmax].filter (fun item => item.id != nmax.id)).map Motor.id ∧
    updateRecentlyViewed nmax [nmax] =
      (nmax :: [nmax].filter (fun item => item.id != nmax.id)).take 3 :=
  recentlyViewed_invariant [nmax, nmax] nmax [nmax]

end RentalMotor
